import Mathlib

/-!
Verification development for the `enocean` crate (EnOcean Serial Protocol 3).

The definitions below are shallow embeddings of the Rust sources:
bytes are `Nat`s (< 256 on the wire), byte vectors are `List Nat`,
fallible operations return dedicated result types, and Rust panics
(out-of-bounds indexing / slicing) are reified as explicit `panicked`
outcomes so that totality claims can be settled.  The synchronization
loop of `ESP3Frame::read_from`, run against an in-memory byte slice,
can also fail to return at all; that outcome is reified as `hang`.
-/

namespace Enocean

/-- The 256-entry CRC8 lookup table, copied from `CRC_TABLE` in
`src/enocean.rs` (polynomial 0x07). -/
def CRC_TABLE : List Nat :=
  [0x00, 0x07, 0x0e, 0x09, 0x1c, 0x1b, 0x12, 0x15, 0x38, 0x3f, 0x36, 0x31, 0x24, 0x23, 0x2a, 0x2d,
   0x70, 0x77, 0x7e, 0x79, 0x6c, 0x6b, 0x62, 0x65, 0x48, 0x4f, 0x46, 0x41, 0x54, 0x53, 0x5a, 0x5d,
   0xe0, 0xe7, 0xee, 0xe9, 0xfc, 0xfb, 0xf2, 0xf5, 0xd8, 0xdf, 0xd6, 0xd1, 0xc4, 0xc3, 0xca, 0xcd,
   0x90, 0x97, 0x9e, 0x99, 0x8c, 0x8b, 0x82, 0x85, 0xa8, 0xaf, 0xa6, 0xa1, 0xb4, 0xb3, 0xba, 0xbd,
   0xc7, 0xc0, 0xc9, 0xce, 0xdb, 0xdc, 0xd5, 0xd2, 0xff, 0xf8, 0xf1, 0xf6, 0xe3, 0xe4, 0xed, 0xea,
   0xb7, 0xb0, 0xb9, 0xbe, 0xab, 0xac, 0xa5, 0xa2, 0x8f, 0x88, 0x81, 0x86, 0x93, 0x94, 0x9d, 0x9a,
   0x27, 0x20, 0x29, 0x2e, 0x3b, 0x3c, 0x35, 0x32, 0x1f, 0x18, 0x11, 0x16, 0x03, 0x04, 0x0d, 0x0a,
   0x57, 0x50, 0x59, 0x5e, 0x4b, 0x4c, 0x45, 0x42, 0x6f, 0x68, 0x61, 0x66, 0x73, 0x74, 0x7d, 0x7a,
   0x89, 0x8e, 0x87, 0x80, 0x95, 0x92, 0x9b, 0x9c, 0xb1, 0xb6, 0xbf, 0xb8, 0xad, 0xaa, 0xa3, 0xa4,
   0xf9, 0xfe, 0xf7, 0xf0, 0xe5, 0xe2, 0xeb, 0xec, 0xc1, 0xc6, 0xcf, 0xc8, 0xdd, 0xda, 0xd3, 0xd4,
   0x69, 0x6e, 0x67, 0x60, 0x75, 0x72, 0x7b, 0x7c, 0x51, 0x56, 0x5f, 0x58, 0x4d, 0x4a, 0x43, 0x44,
   0x19, 0x1e, 0x17, 0x10, 0x05, 0x02, 0x0b, 0x0c, 0x21, 0x26, 0x2f, 0x28, 0x3d, 0x3a, 0x33, 0x34,
   0x4e, 0x49, 0x40, 0x47, 0x52, 0x55, 0x5c, 0x5b, 0x76, 0x71, 0x78, 0x7f, 0x6a, 0x6d, 0x64, 0x63,
   0x3e, 0x39, 0x30, 0x37, 0x22, 0x25, 0x2c, 0x2b, 0x06, 0x01, 0x08, 0x0f, 0x1a, 0x1d, 0x14, 0x13,
   0xae, 0xa9, 0xa0, 0xa7, 0xb2, 0xb5, 0xbc, 0xbb, 0x96, 0x91, 0x98, 0x9f, 0x8a, 0x8d, 0x84, 0x83,
   0xde, 0xd9, 0xd0, 0xd7, 0xc2, 0xc5, 0xcc, 0xcb, 0xe6, 0xe1, 0xe8, 0xef, 0xfa, 0xfd, 0xf4, 0xf3]

/-- One step of the CRC8 loop body from `compute_crc8` in `src/enocean.rs`:
`checksum = CRC_TABLE[(checksum & 0xFF ^ byte & 0xFF) as usize]`. -/
def crcStep (checksum byte : Nat) : Nat :=
  CRC_TABLE.getD ((checksum &&& 0xFF) ^^^ (byte &&& 0xFF)) 0

/-- `compute_crc8` from `src/enocean.rs`: fold the table step over the
message starting from checksum 0.

Modelled from the spec: the `crc8` module used by `src/frame.rs`
(`crate::crc8::{compute_crc8, CRC8}`) is not present under `src/`; per
spec section 4.1 it is the same fixed-table CRC8 (polynomial 0x07), so
this single function also stands for `crate::crc8::compute_crc8` and
for `CRC8::from(..).extend(..)` folded over concatenated slices. -/
def compute_crc8 (msg : List Nat) : Nat :=
  msg.foldl crcStep 0

/-! ## `src/frame.rs` : `ESP3Frame` and `ESP3Frame::read_from` -/

/-- The owned, CRC-checked frame `ESP3Frame` from `src/frame.rs`:
packet type, the two lengths decoded from the header, and the backing
byte vector `frame` (sync byte, header, data, optional data and data
CRC included). -/
structure ESP3FrameM where
  packet_type : Nat
  data_length : Nat
  optional_data_length : Nat
  frame : List Nat
deriving DecidableEq, Repr

/-- `ESP3Frame::data`: `&self.frame[6..][..self.data_length]`. -/
def ESP3FrameM.data (f : ESP3FrameM) : List Nat :=
  (f.frame.drop 6).take f.data_length

/-- `ESP3Frame::optional_data`: `&self.frame[6+self.data_length..][..self.optional_data_length]`. -/
def ESP3FrameM.optional_data (f : ESP3FrameM) : List Nat :=
  (f.frame.drop (6 + f.data_length)).take f.optional_data_length

/-- `ESP3Frame::write_to` writes the backing vector verbatim
(`writer.write_all(&self.frame)`). -/
def ESP3FrameM.write_to (f : ESP3FrameM) : List Nat :=
  f.frame

/-- Outcome of `ESP3Frame::read_from` run against an in-memory byte
slice (`&mut &[u8]`, as in the module's own doc example).  `eof` and
`dataCRC` are the `FrameReadError::EOF` and `FrameReadError::DataCRC`
variants; `ioEOF` is `FrameReadError::IOError` produced when
`read_exact` hits the end of the slice; `hang` is the outcome in which
the synchronization loop spins forever without returning (a slice's
`fill_buf` keeps handing back the same sub-6-byte buffer). -/
inductive FrameReadResult where
  | ok (f : ESP3FrameM)
  | eof
  | ioEOF
  | dataCRC (frame : List Nat) (data_crc : Nat)
  | hang
deriving DecidableEq, Repr

/-- `ESP3Frame::read_from` from `src/frame.rs` over an in-memory byte
slice.  The loop body: an empty buffer is `EOF`; a first byte other
than `0x55` is consumed and the search resumes; fewer than 6 buffered
bytes make the loop `continue` without consuming (which, on a slice,
re-reads the same bytes forever: `hang`); a failed header CRC over
bytes 1..6 consumes one byte and resumes; otherwise the header is
decoded, `6 + data_length + optional_data_length + 1` bytes are read
from the sync byte on (`ioEOF` when the slice is shorter), and the
data CRC over everything past the header must fold to 0. -/
def readFrom : List Nat → FrameReadResult
  | [] => .eof
  | b :: rest =>
    if b ≠ 0x55 then readFrom rest
    else if rest.length + 1 < 6 then .hang
    else if compute_crc8 (rest.take 5) ≠ 0 then readFrom rest
    else
      let data_length := rest.getD 0 0 * 256 + rest.getD 1 0
      let optional_data_length := rest.getD 2 0
      let packet_type := rest.getD 3 0
      let total_length := 6 + data_length + optional_data_length + 1
      if rest.length + 1 < total_length then .ioEOF
      else
        let frame := (b :: rest).take total_length
        let data_crc := compute_crc8 (frame.drop 6)
        if data_crc ≠ 0 then .dataCRC frame data_crc
        else .ok ⟨packet_type, data_length, optional_data_length, frame⟩

/-- The byte sequence of exactly one syntactically valid ESP3 frame:
sync byte `0x55`, header CRC folding to zero over bytes 1..6, total
length matching the declared lengths, and data CRC folding to zero
over everything past the header. -/
def ValidFrameBytes (bs : List Nat) : Prop :=
  bs.getD 0 0 = 0x55 ∧
  6 ≤ bs.length ∧
  compute_crc8 ((bs.drop 1).take 5) = 0 ∧
  bs.length = 6 + (bs.getD 1 0 * 256 + bs.getD 2 0) + bs.getD 3 0 + 1 ∧
  compute_crc8 (bs.drop 6) = 0

instance (bs : List Nat) : Decidable (ValidFrameBytes bs) := by
  unfold ValidFrameBytes; infer_instance

/-! ## `src/enocean.rs` : the `ESP3` data model and `esp3_of_enocean_message` -/

/-- `PacketType` from `src/enocean.rs`. -/
inductive PacketType where
  | radioErp1
  | response
  | undefined
  | radioSubTel
  | event
  | commonCommand
  | smartAckCommand
  | remoteManCommand
  | radioMessage
  | radioErp2
  | radio802_15_4
  | command2_4
deriving DecidableEq, Repr

/-- `Rorg` from `src/enocean.rs`. -/
inductive Rorg where
  | undefined
  | rps
  | bs1
  | bs4
  | vld
  | msc
  | adt
  | ute
  | smLrnReq
  | smLrnAns
  | smRec
  | sysEx
  | sec
  | secEncaps
deriving DecidableEq, Repr

/-- `ReturnCode` from `src/enocean.rs`. -/
inductive ReturnCode where
  | ok
  | error
  | notSupported
  | wrongParam
  | operationDenied
  | lockSet
  | bufferTooSmall
  | noFreeBuffer
  | undefined
deriving DecidableEq, Repr

/-- `DataType` from `src/enocean.rs`. -/
inductive DataType where
  | rawData (raw_data : List Nat)
  | erp1Data (rorg : Rorg) (sender_id : List Nat) (status : Nat) (payload : List Nat)
  | responseData (return_code : ReturnCode) (response_payload : Option (List Nat))
deriving DecidableEq, Repr

/-- `OptDataType` from `src/enocean.rs`. -/
inductive OptDataType where
  | rawData (raw_data : List Nat)
  | erp1OptData (subtel_num : Nat) (destination_id : List Nat) (rssi : Nat) (security_lvl : Nat)
deriving DecidableEq, Repr

/-- The `ESP3` struct from `src/enocean.rs`. -/
structure ESP3 where
  data_length : Nat
  optionnal_data_length : Nat
  packet_type : PacketType
  data : DataType
  opt_data : Option OptDataType
  crc_header : Nat
  crc_data : Nat
deriving DecidableEq, Repr

/-- `ParseEspErrorKind` from `src/lib.rs`. -/
inductive ParseEspErrorKind where
  | noSyncByte
  | crcMismatch
  | incompleteMessage
  | unimplemented
deriving DecidableEq, Repr

/-- Outcome of `esp3_of_enocean_message`: `Ok(ESP3)`, a `ParseEspError`
(kind plus the `packet` field, which the code always sets to the whole
input vector `em`), or a Rust panic from out-of-bounds indexing or a
reversed slice range. -/
inductive EspResult where
  | ok (esp : ESP3)
  | err (kind : ParseEspErrorKind) (packet : List Nat)
  | panicked
deriving DecidableEq, Repr

/-- `get_packet_type` from `src/enocean.rs`: dispatch on `em[4]`;
`none` models the `Err(ParseEspError { kind: Unimplemented, .. })`
wildcard arm.  (Its only caller has already checked `em.len() > 7`, so
the `em[4]` access cannot fail there.) -/
def get_packet_type (em : List Nat) : Option PacketType :=
  match em.getD 4 0 with
  | 0x01 => some .radioErp1
  | 0x02 => some .response
  | 0x03 => some .radioSubTel
  | 0x04 => some .event
  | 0x05 => some .commonCommand
  | 0x06 => some .smartAckCommand
  | 0x07 => some .remoteManCommand
  | 0x09 => some .radioMessage
  | 0x0A => some .radioErp2
  | 0x10 => some .radio802_15_4
  | 0x11 => some .command2_4
  | _ => none

/-- `get_return_code` from `src/enocean.rs` (total; wildcard maps to
`Undefined`). -/
def get_return_code (rc_byte : Nat) : ReturnCode :=
  match rc_byte with
  | 0x00 => .ok
  | 0x01 => .error
  | 0x02 => .notSupported
  | 0x03 => .wrongParam
  | 0x04 => .operationDenied
  | 0x05 => .lockSet
  | 0x06 => .bufferTooSmall
  | 0x07 => .noFreeBuffer
  | _ => .undefined

/-- `get_radio_organization` from `src/enocean.rs` (total; wildcard
maps to `Undefined`). -/
def get_radio_organization (rorg_byte : Nat) : Rorg :=
  match rorg_byte with
  | 0xF6 => .rps
  | 0xD5 => .bs1
  | 0xA5 => .bs4
  | 0xD2 => .vld
  | 0xD1 => .msc
  | 0xA6 => .adt
  | 0xD4 => .ute
  | 0xC6 => .smLrnReq
  | 0xC7 => .smLrnAns
  | 0xA7 => .smRec
  | 0xC5 => .sysEx
  | 0x30 => .sec
  | 0x31 => .secEncaps
  | _ => .undefined

/-- `esp3_of_enocean_message` from `src/enocean.rs`.  Checks in source
order: `em[0] == 0x55` (this very access panics on the empty vector),
`em.len() > 7`, header CRC against `em[5]`, declared lengths against
`em.len()`, data CRC against the trailing byte, then dispatch on the
packet type.  The `RadioErp1` arm slices `em[7..1+data_length]` (a
reversed, panicking range when `data_length < 6`) and indexes up to
`em[12+data_length]` (out of bounds when `em.len() < 13+data_length`);
the `Response` arm slices `em[7..data_length]` (reversed, panicking
when `1 < data_length < 7`).  Note the code leaves the struct's
`packet_type` field at its `Undefined` initializer except in the
`RadioErp1` arm. -/
def esp3_of_enocean_message (em : List Nat) : EspResult :=
  if em.length = 0 then .panicked
  else if em.getD 0 0 ≠ 0x55 then .err .noSyncByte em
  else if em.length ≤ 7 then .err .incompleteMessage em
  else if compute_crc8 ((em.drop 1).take 4) ≠ em.getD 5 0 then .err .crcMismatch em
  else
    let data_length := em.getD 1 0 * 256 + em.getD 2 0
    let optionnal_data_length := em.getD 3 0
    if em.length < data_length + optionnal_data_length + 7 then .err .incompleteMessage em
    else
      let crc_data := compute_crc8 ((em.drop 6).take (data_length + optionnal_data_length))
      if crc_data ≠ em.getD (6 + data_length + optionnal_data_length) 0 then .err .crcMismatch em
      else
        match get_packet_type em with
        | some .radioErp1 =>
          if data_length < 6 ∨ em.length < 13 + data_length then .panicked
          else
            .ok { data_length := data_length
                , optionnal_data_length := optionnal_data_length
                , packet_type := .radioErp1
                , data := .erp1Data (get_radio_organization (em.getD 6 0))
                    ((em.drop (1 + data_length)).take 4)
                    (em.getD (5 + data_length) 0)
                    ((em.drop 7).take (data_length - 6))
                , opt_data := some (.erp1OptData (em.getD (6 + data_length) 0)
                    ((em.drop (7 + data_length)).take 4)
                    (em.getD (11 + data_length) 0)
                    (em.getD (12 + data_length) 0))
                , crc_header := em.getD 5 0
                , crc_data := crc_data }
        | some .response =>
          if 1 < data_length ∧ data_length < 7 then .panicked
          else
            .ok { data_length := data_length
                , optionnal_data_length := optionnal_data_length
                , packet_type := .undefined
                , data := .responseData (get_return_code (em.getD 6 0))
                    (if 1 < data_length then some ((em.drop 7).take (data_length - 7)) else none)
                , opt_data := none
                , crc_header := em.getD 5 0
                , crc_data := crc_data }
        | some _ =>
          .ok { data_length := data_length
              , optionnal_data_length := optionnal_data_length
              , packet_type := .undefined
              , data := .rawData ((em.drop 6).take data_length)
              , opt_data := some (.rawData ((em.drop (6 + data_length)).take optionnal_data_length))
              , crc_header := em.getD 5 0
              , crc_data := crc_data }
        | none => .err .unimplemented em

/-- A byte vector accepted by all the envelope checks of
`esp3_of_enocean_message` (sync byte, minimal length, header CRC,
declared lengths, data CRC). -/
def ValidEspBytes (em : List Nat) : Prop :=
  em.getD 0 0 = 0x55 ∧
  7 < em.length ∧
  compute_crc8 ((em.drop 1).take 4) = em.getD 5 0 ∧
  em.getD 1 0 * 256 + em.getD 2 0 + em.getD 3 0 + 7 ≤ em.length ∧
  compute_crc8 ((em.drop 6).take (em.getD 1 0 * 256 + em.getD 2 0 + em.getD 3 0))
    = em.getD (6 + (em.getD 1 0 * 256 + em.getD 2 0) + em.getD 3 0) 0

instance (em : List Nat) : Decidable (ValidEspBytes em) := by
  unfold ValidEspBytes; infer_instance

/-! ## `src/eep.rs` : profile registry and the D2-01-0E payload decoder -/

/-- `EEP` from `src/eep.rs`. -/
inductive EEP where
  | a50401
  | d2010e
  | d50001
  | f60201
  | f60202
deriving DecidableEq, Repr

/-- `get_eep` from `src/eep.rs`: the fixed sender-id registry. -/
def get_eep (id : List Nat) : Option EEP :=
  match id with
  | [5, 17, 114, 247] => some .a50401
  | [254, 245, 143, 245] => some .f60201
  | [0, 49, 192, 249] => some .f60202
  | [0x05, 0x0a, 0x3d, 0x6a] => some .d2010e
  | [0x01, 0x92, 0x3d, 0xa8] => some .d50001
  | _ => none

/-- `bit_of_byte` from `src/eep.rs`: `((byte >> bit_nb) & 1) != 0`. -/
def bit_of_byte (bit_nb : Nat) (byte : Nat) : Bool :=
  byte.testBit bit_nb

/-- `bits_of_byte` from `src/eep.rs`: `value[7-i] = bit_of_byte(i, byte)`,
so index `j` of the result holds bit `7 - j` (MSB first). -/
def bits_of_byte (byte : Nat) : List Bool :=
  [bit_of_byte 7 byte, bit_of_byte 6 byte, bit_of_byte 5 byte, bit_of_byte 4 byte,
   bit_of_byte 3 byte, bit_of_byte 2 byte, bit_of_byte 1 byte, bit_of_byte 0 byte]

/-- `HashMap::insert` on the string-to-string reading map: any earlier
binding of the key is replaced. -/
def hmInsert (m : List (String × String)) (k v : String) : List (String × String) :=
  m.filter (fun p => p.1 ≠ k) ++ [(k, v)]

/-- `HashMap::get` on the reading map. -/
def hmGet (m : List (String × String)) (k : String) : Option String :=
  (m.find? (fun p => p.1 = k)).map (fun p => p.2)

/-- `parse_d201_data` from `src/eep.rs` (smart-plug D2-01-0E payloads).
`none` models the Rust panic from indexing a payload shorter than the
command's layout.  Command `0x07` (telemetry): unit from the top three
bits of `payload[1]`, channel from `payload[1] & 0x1F`, measured value
`payload[5] + payload[4]*256 + payload[3]*65536` rendered in decimal.
Command `0x04` (status): two flag bits of `payload[0]` and the 7-bit
output value bands of `payload[2]`. -/
def parse_d201_data (payload : List Nat) : Option (List (String × String)) :=
  match payload[0]? with
  | none => none
  | some p0 =>
    let command_id := p0 &&& 0x0f
    if command_id = 0x07 then
      match payload[1]?, payload[3]?, payload[4]?, payload[5]? with
      | some p1, some p3, some p4, some p5 =>
        let db4_bits := bits_of_byte p1
        let withUN := hmInsert []
          "UN"
          (match db4_bits.take 3 with
           | [false, false, false] => "Energy [Ws]"
           | [false, false, true] => "Energy [Wh]"
           | [false, true, false] => "Energy [KWh]"
           | [false, true, true] => "Power[W]"
           | [true, false, false] => "Power[KW]"
           | _ => "Error")
        let withIO := hmInsert withUN "I/O" (toString (p1 &&& 0b00011111))
        some (hmInsert withIO "MV" (toString (p5 + p4 * 256 + p3 * 65536)))
      | _, _, _, _ => none
    else if command_id = 0x04 then
      match payload[2]? with
      | none => none
      | some p2 =>
        let db2_bits := bits_of_byte p0
        let withPF := hmInsert []
          "PF"
          (if db2_bits.getD 0 false then "Power Failure Detection enabled"
           else "Power Failure Detection disabled/not supported")
        let withPFD := hmInsert withPF
          "PFD"
          (if db2_bits.getD 1 false then "Power Failure Detected"
           else "Power Failure Detection disabled/not supported")
        let ov := p2 &&& 0b01111111
        some (hmInsert withPFD
          "OV"
          (if ov = 0x00 then "Output value : 0% or OFF"
           else if ov = 0x7F then "Output value : 1 to 100% or ON"
           else if 0x01 ≤ ov ∧ ov ≤ 0x64 then "Not used"
           else if 0x65 ≤ ov ∧ ov ≤ 0x7E then "Output value not valid / not set"
           else "Error"))
    else
      some (hmInsert [] "Error" "Bad CMD ID")

/-! ## `src/packet.rs` and `src/port.rs` : `Response::decode` and `Port::write_packet` -/

/-- Outcome of `Response::decode` from `src/packet.rs`: `panicked`
models the `frame.data[0]` access on an empty data section,
`invalidResultCode` the `ParseError::InvalidResultCode` path. -/
inductive ResponseDecodeResult where
  | ok (code : ReturnCode) (data : List Nat)
  | invalidResultCode (byte : Nat)
  | panicked
deriving DecidableEq, Repr

/-- `ResponseCode::try_from_primitive`: succeeds exactly on the
discriminants of `ReturnCode` (0x00..0x07 and 0xFF). -/
def return_code_try_from (b : Nat) : Option ReturnCode :=
  match b with
  | 0x00 => some .ok
  | 0x01 => some .error
  | 0x02 => some .notSupported
  | 0x03 => some .wrongParam
  | 0x04 => some .operationDenied
  | 0x05 => some .lockSet
  | 0x06 => some .bufferTooSmall
  | 0x07 => some .noFreeBuffer
  | 0xff => some .undefined
  | _ => none

/-- `Response::decode` from `src/packet.rs`: return code from
`frame.data[0]`, payload from `frame.data[1..]`. -/
def response_decode (f : ESP3FrameM) : ResponseDecodeResult :=
  match f.data[0]? with
  | none => .panicked
  | some b =>
    match return_code_try_from b with
    | none => .invalidResultCode b
    | some code => .ok code (f.data.drop 1)

/-- The read loop of `Port::write_packet` from `src/port.rs`, over the
sequence of frames successfully returned by `read_frame` while the
command is outstanding: every frame whose packet type is not `0x02` is
pushed onto the back of the pending queue and reading continues; the
first `0x02` frame stops the loop.  `none` means the frame sequence was
exhausted with no response (the real loop would still be blocked in
`read_frame`). -/
def write_packet_loop : List ESP3FrameM → List ESP3FrameM → Option (List ESP3FrameM × ESP3FrameM)
  | [], _ => none
  | f :: rest, queue =>
    if f.packet_type ≠ 0x02 then write_packet_loop rest (queue ++ [f])
    else some (queue, f)

/-- `Port::write_packet` after the outbound frame has been written:
run the read loop, then `Response::decode` the reply. -/
def write_packet (incoming : List ESP3FrameM) (queue : List ESP3FrameM) :
    Option (List ESP3FrameM × ResponseDecodeResult) :=
  (write_packet_loop incoming queue).map (fun qr => (qr.1, response_decode qr.2))

/-! ## `src/communicator.rs` : the partial-frame repair state -/

/-- What one iteration of the communicator thread's read loop sends to
the main thread. -/
inductive CommEffect where
  | sent (esp : ESP3)
  | nothing
  | panicked
deriving DecidableEq, Repr

/-- One read iteration of the `EnoceanCommunicator::new` thread loop in
`src/communicator.rs`, given the saved `incomplete_serial_buf` and the
chunk just read from the port.  Returns the new saved buffer and what
was forwarded.  The source: a successful parse sends the packet (the
saved buffer is not touched); an `IncompleteMessage` error saves the
offending chunk; a `NoSyncByte` error with a saved buffer concatenates
buffer and chunk, re-parses once, and unconditionally clears the
buffer; every other error leaves the buffer as it was. -/
def communicator_step (incomplete : Option (List Nat)) (chunk : List Nat) :
    Option (List Nat) × CommEffect :=
  match esp3_of_enocean_message chunk with
  | .ok p => (incomplete, .sent p)
  | .panicked => (incomplete, .panicked)
  | .err kind pkt =>
    match kind with
    | .incompleteMessage => (some pkt, .nothing)
    | .noSyncByte =>
      match incomplete with
      | some buffer =>
        (none,
         match esp3_of_enocean_message (buffer ++ pkt) with
         | .ok p => .sent p
         | .panicked => .panicked
         | .err _ _ => .nothing)
      | none => (none, .nothing)
    | _ => (incomplete, .nothing)

/-! ## Concrete byte vectors used by the claims -/

/-- Valid A5-04-01 telegram from the repository's own tests
(`src/enocean.rs`, "A50401 when button is not pushed"). -/
def validA50401 : List Nat :=
  [85, 0, 10, 7, 1, 235, 165, 0, 229, 204, 10, 5, 17, 114, 247, 0,
   1, 255, 255, 255, 255, 54, 0, 213]

/-- Scenario C bytes: D2-01-0E smart-plug telemetry report
(`src/eep.rs` test `given_valid_d2010e_esp3_packet_...`). -/
def c8bytes : List Nat :=
  [0x55, 0, 0xC, 7, 1, 0x96, 0xD2, 7, 0x60, 0, 0, 0, 0x13, 5, 0xA, 0x3D,
   0x6A, 0, 1, 0xFF, 0xFF, 0xFF, 0xFF, 0x3D, 0, 0xF1]

/-- A small valid frame (data length 1, optional length 0) built so
that its packet-type byte `0xA7` equals `compute_crc8 [0x55, 0, 1, 0]`:
prepending a `0x55` garbage byte then makes the reader see a spurious
CRC-valid header. -/
def c4frame : List Nat :=
  [0x55, 0, 1, 0, 0xA7, 0x17, 0, 0]

/-- A CRC-valid frame whose packet-type byte `0x08` is outside the
`get_packet_type` enumeration. -/
def unknownTypeFrame : List Nat :=
  [0x55, 0, 1, 0, 0x08, compute_crc8 [0, 1, 0, 0x08], 0, 0]

/-- A CRC-valid frame with packet type `0x03` (RadioSubTel): recognized
by `get_packet_type` but not modeled, hence decoded as raw data. -/
def rawTypeFrame : List Nat :=
  [0x55, 0, 1, 0, 0x03, compute_crc8 [0, 1, 0, 0x03], 0, 0]

/-- A truncated chunk (the tests' "incomplete message" input). -/
def incompleteChunk : List Nat :=
  [85, 0, 7, 7, 1]

/-- A non-Response frame (packet type `0x01`) as read off the wire. -/
def frameA : ESP3FrameM :=
  ⟨0x01, 10, 7, validA50401⟩

/-- A Response frame (packet type `0x02`) whose 1-byte data section is
the return code `0x00`. -/
def frameR : ESP3FrameM :=
  ⟨0x02, 1, 0, [0x55, 0, 1, 0, 2, 0x07, 0, 0]⟩

end Enocean

namespace Enocean

/-! ## CRC8 facts -/

set_option maxRecDepth 4000

theorem compute_crc8_append (a b : List Nat) :
    compute_crc8 (a ++ b) = b.foldl crcStep (compute_crc8 a) := by
  simp [compute_crc8, List.foldl_append]

theorem compute_crc8_snoc (m : List Nat) (c : Nat) :
    compute_crc8 (m ++ [c]) = crcStep (compute_crc8 m) c := by
  simp [compute_crc8_append]

theorem crc_table_mem_lt : ∀ x ∈ CRC_TABLE, x < 256 := by decide

theorem crcStep_lt (c b : Nat) : crcStep c b < 256 := by
  unfold crcStep
  rcases h : CRC_TABLE[(c &&& 0xFF) ^^^ (b &&& 0xFF)]? with _ | x
  · simp [List.getD, h]
  · have hx : x ∈ CRC_TABLE := List.getElem?_mem h
    simpa [List.getD, h] using crc_table_mem_lt x hx

theorem compute_crc8_lt (m : List Nat) : compute_crc8 m < 256 := by
  unfold compute_crc8
  induction m using List.reverseRecOn with
  | nil => decide
  | append_singleton xs x _ =>
    simpa [List.foldl_append] using crcStep_lt (xs.foldl crcStep 0) x

theorem crc_table_eq_zero_iff : ∀ y < 256, (CRC_TABLE.getD y 0 = 0 ↔ y = 0) := by decide

theorem and_255_of_lt {n : Nat} (h : n < 256) : n &&& 255 = n := by
  have hm : n % 256 = n := Nat.mod_eq_of_lt h
  calc n &&& 255 = n &&& (2 ^ 8 - 1) := by norm_num
    _ = n % 2 ^ 8 := Nat.and_pow_two_sub_one_eq_mod n 8
    _ = n := by norm_num [hm]

/-- C9 counterexample: the CRC of `[0, 1, 0, 2]` is `0x65`, not the
`0xDB` the claim asserts. -/
theorem crc8_0102_is_not_0xDB : compute_crc8 [0, 1, 0, 2] ≠ 0xDB := by decide

/-- C9 (amended): `compute_crc8 [0, 1, 0, 2] = 0x65`; the `0xDB`
reference value belongs to the header `[0, 5, 1, 2]` of the
CO_RD_IDBASE example recorded in the source comments. -/
theorem crc8_fixed_vectors :
    compute_crc8 [0, 1, 0, 2] = 0x65 ∧ compute_crc8 [0, 5, 1, 2] = 0xDB := by
  constructor <;> decide

/-- C10: appending the CRC8 of a message to the message folds the CRC
to zero; consequently a fields-plus-CRC-byte buffer folds to zero
exactly when the trailing byte equals the CRC8 of the fields, which is
the form of both acceptance tests in `ESP3Frame::read_from`. -/
theorem crc8_self_annihilation :
    (∀ m : List Nat, compute_crc8 (m ++ [compute_crc8 m]) = 0)
    ∧ (∀ (fields : List Nat) (c : Nat), c < 256 →
        (compute_crc8 (fields ++ [c]) = 0 ↔ c = compute_crc8 fields)) := by
  have hzero : ∀ m : List Nat, compute_crc8 (m ++ [compute_crc8 m]) = 0 := by
    intro m
    rw [compute_crc8_snoc]
    unfold crcStep
    rw [Nat.xor_self]
    decide
  refine ⟨hzero, fun fields c hc => ?_⟩
  rw [compute_crc8_snoc]
  unfold crcStep
  have hr : compute_crc8 fields < 256 := compute_crc8_lt fields
  rw [and_255_of_lt hr, and_255_of_lt hc]
  have hy : compute_crc8 fields ^^^ c < 256 := by
    have h8 : (256 : Nat) = 2 ^ 8 := by norm_num
    rw [h8] at hr hc ⊢
    exact Nat.xor_lt_two_pow hr hc
  rw [crc_table_eq_zero_iff _ hy, Nat.xor_eq_zero]
  exact eq_comm

/-- C10 witness: the self-annihilation law and the acceptance-test
equivalence evaluated at concrete inputs (the equivalence at the byte
`2`, which is not the CRC of `[0, 1, 0]`). -/
theorem crc8_self_annihilation_witness :
    compute_crc8 ([0, 10, 7, 1] ++ [compute_crc8 [0, 10, 7, 1]]) = 0
    ∧ ((2 : Nat) < 256
        ∧ (compute_crc8 ([0, 1, 0] ++ [2]) = 0 ↔ (2 : Nat) = compute_crc8 [0, 1, 0])) :=
  ⟨crc8_self_annihilation.1 [0, 10, 7, 1],
   by decide,
   crc8_self_annihilation.2 [0, 1, 0] 2 (by decide)⟩

/-! ## C1: totality of decoding -/

/-- C1: `esp3_of_enocean_message` is not total — on the empty input
vector the very first check `em[0] != 0x55` indexes out of bounds and
the function panics instead of returning `Ok` or a `ParseEspError`. -/
theorem esp3_panics_on_empty_input :
    esp3_of_enocean_message [] = .panicked := by decide

/-! ## C8: smart-plug telemetry scenario -/

/-- C8: the Scenario C bytes decode to a RadioErp1 ESP3 packet with
payload `[0x07, 0x60, 0, 0, 0, 0x13]` from sender `05 0A 3D 6A`
(registered as D2-01-0E), and the D2-01-0E decoder maps that payload
to `UN = "Power[W]"` and `MV = "19"`, where
`19 = payload[3]*65536 + payload[4]*256 + payload[5]`. -/
theorem smart_plug_telemetry_scenario :
    esp3_of_enocean_message c8bytes
      = .ok ⟨12, 7, .radioErp1,
             .erp1Data .vld [0x05, 0x0A, 0x3D, 0x6A] 0 [0x07, 0x60, 0, 0, 0, 0x13],
             some (.erp1OptData 1 [0xFF, 0xFF, 0xFF, 0xFF] 0x3D 0), 0x96, 0xF1⟩
    ∧ get_eep [0x05, 0x0A, 0x3D, 0x6A] = some .d2010e
    ∧ parse_d201_data [0x07, 0x60, 0, 0, 0, 0x13]
        = some [("UN", "Power[W]"), ("I/O", "0"), ("MV", "19")]
    ∧ hmGet [("UN", "Power[W]"), ("I/O", "0"), ("MV", "19")] "UN" = some "Power[W]"
    ∧ hmGet [("UN", "Power[W]"), ("I/O", "0"), ("MV", "19")] "MV" = some "19"
    ∧ (0 : Nat) * 65536 + 0 * 256 + 0x13 = 19 := by
  refine ⟨by decide, by decide, by decide, by decide, by decide, by decide⟩

end Enocean

namespace Enocean

/-! ## C2: byte-level round trip of framing -/

/-- C2: reading a syntactically valid frame byte sequence yields a
frame whose `write_to` reproduces the input bytes exactly (the owned
`ESP3Frame` keeps the full validated byte vector and `write_to` emits
it verbatim). -/
theorem frame_roundtrip (bs : List Nat) (h : ValidFrameBytes bs) :
    ∃ f : ESP3FrameM, readFrom bs = .ok f ∧ f.write_to = bs := by
  obtain ⟨h0, h6, hhc, hlen, hdc⟩ := h
  cases bs with
  | nil => simp at h6
  | cons b rest =>
    have hb : b = 0x55 := by simpa using h0
    subst hb
    simp only [List.getD_cons_succ] at hlen
    have hrest : ((0x55 : Nat) :: rest).drop 1 = rest := by simp
    rw [hrest] at hhc
    have hlen6 : ¬ rest.length + 1 < 6 := by
      simp only [List.length_cons] at h6
      omega
    have hlentot :
        ¬ rest.length + 1 < 6 + (rest.getD 0 0 * 256 + rest.getD 1 0) + rest.getD 2 0 + 1 := by
      simp only [List.length_cons] at hlen
      omega
    have htake :
        ((0x55 : Nat) :: rest).take
            (6 + (rest.getD 0 0 * 256 + rest.getD 1 0) + rest.getD 2 0 + 1)
          = (0x55 : Nat) :: rest := by
      apply List.take_of_length_le
      simp only [List.length_cons] at hlen ⊢
      omega
    refine ⟨⟨rest.getD 3 0, rest.getD 0 0 * 256 + rest.getD 1 0, rest.getD 2 0,
             (0x55 : Nat) :: rest⟩, ?_, rfl⟩
    simp only [readFrom]
    rw [if_neg (by simp)]
    rw [if_neg hlen6]
    rw [if_neg (by simp [hhc])]
    rw [if_neg hlentot]
    rw [htake]
    have hdc5 : compute_crc8 (rest.drop 5) = 0 := by simpa using hdc
    rw [if_neg (by simp [hdc5])]

/-- C2 witness: the round trip evaluated on the A5-04-01 telegram from
the repository's tests. -/
theorem frame_roundtrip_witness :
    ValidFrameBytes validA50401
    ∧ ∃ f : ESP3FrameM, readFrom validA50401 = .ok f ∧ f.write_to = validA50401 :=
  ⟨by decide, frame_roundtrip validA50401 (by decide)⟩

/-! ## C4: resynchronization after one garbage byte -/

/-- C4 counterexample: prepending the garbage byte `0x55` to the valid
frame `c4frame` (whose packet-type byte happens to extend the shifted
header to a CRC-valid one) makes `read_from` mis-synchronize: it
decodes a 21760-byte data length, hits the end of the stream, and
returns an I/O error instead of the frame it returns without the
prefix. -/
theorem resync_spurious_sync_byte_changes_result :
    readFrom c4frame = .ok ⟨0xA7, 1, 0, c4frame⟩
    ∧ readFrom (0x55 :: c4frame) = .ioEOF
    ∧ FrameReadResult.ioEOF ≠ .ok ⟨0xA7, 1, 0, c4frame⟩ := by
  refine ⟨by decide, by decide, by decide⟩

/-- C4 (amended): discarding exactly one byte is guaranteed — and the
decoded result unchanged — for every garbage byte that does not create
a spurious CRC-valid header: any non-`0x55` byte, or a `0x55` after
which at least 6 bytes remain but the header CRC over the next 5 bytes
fails. -/
theorem resync_discards_one_noise_byte (g : Nat) (s : List Nat)
    (h : g ≠ 0x55 ∨ (6 ≤ s.length + 1 ∧ compute_crc8 (s.take 5) ≠ 0)) :
    readFrom (g :: s) = readFrom s := by
  rcases h with hg | ⟨hlen, hcrc⟩
  · simp [readFrom, hg]
  · rcases eq_or_ne g 0x55 with rfl | hg
    · simp [readFrom, Nat.not_lt.mpr hlen, hcrc]
    · simp [readFrom, hg]

/-- C4 witness: prepending the non-sync garbage byte `0x00` to
`c4frame` leaves the decoded result unchanged. -/
theorem resync_discards_one_noise_byte_witness :
    ((0 : Nat) ≠ 0x55 ∨ (6 ≤ c4frame.length + 1 ∧ compute_crc8 (c4frame.take 5) ≠ 0))
    ∧ readFrom (0 :: c4frame) = readFrom c4frame :=
  ⟨Or.inl (by decide), resync_discards_one_noise_byte 0 c4frame (Or.inl (by decide))⟩

/-! ## C5: behavior when the stream ends before a complete frame -/

/-- C5 counterexample: on the stream `[0x55]`, which ends before a
complete frame, `read_from` does not return the EOF variant — it does
not return at all: the synchronization loop keeps re-reading the same
1-byte buffer. -/
theorem truncated_sync_prefix_never_returns :
    readFrom [0x55] = .hang ∧ FrameReadResult.hang ≠ .eof := by
  refine ⟨by decide, by decide⟩

/-- C5 (amended): when the stream ends before a complete frame, the
outcome splits by where it ends: exhausted while seeking (no `0x55`
ever found) gives the `EOF` variant; a CRC-valid header whose declared
body extends past the end of the stream gives the `IOError` variant
(an `UnexpectedEof` from `read_exact`), not `EOF`; and a remainder of
1 to 5 bytes starting with `0x55` makes the loop spin forever.  All
returning outcomes are distinct from the data-CRC variant. -/
theorem readFrom_truncation_outcomes :
    (∀ s : List Nat, (∀ b ∈ s, b ≠ 0x55) → readFrom s = .eof)
    ∧ (∀ s : List Nat, s.getD 0 0 = 0x55 → s ≠ [] → s.length < 6 → readFrom s = .hang)
    ∧ (∀ s : List Nat, s.getD 0 0 = 0x55 → 6 ≤ s.length →
        compute_crc8 ((s.drop 1).take 5) = 0 →
        s.length < 6 + (s.getD 1 0 * 256 + s.getD 2 0) + s.getD 3 0 + 1 →
        readFrom s = .ioEOF)
    ∧ (∀ (fr : List Nat) (c : Nat),
        FrameReadResult.eof ≠ .dataCRC fr c
        ∧ FrameReadResult.ioEOF ≠ .dataCRC fr c
        ∧ FrameReadResult.eof ≠ .ioEOF) := by
  refine ⟨?_, ?_, ?_, ?_⟩
  · intro s hs
    induction s with
    | nil => rfl
    | cons b rest ih =>
      have hb : b ≠ 0x55 := hs b (by simp)
      rw [readFrom, if_pos hb]
      exact ih (fun x hx => hs x (by simp [hx]))
  · intro s h0 hne hlt
    cases s with
    | nil => exact absurd rfl hne
    | cons b rest =>
      have hb : b = 0x55 := by simpa using h0
      subst hb
      simp only [List.length_cons] at hlt
      rw [readFrom, if_neg (by simp), if_pos hlt]
  · intro s h0 h6 hhc hlt
    cases s with
    | nil => simp at h6
    | cons b rest =>
      have hb : b = 0x55 := by simpa using h0
      subst hb
      have hrest : ((0x55 : Nat) :: rest).drop 1 = rest := by simp
      rw [hrest] at hhc
      simp only [List.length_cons, List.getD_cons_succ] at h6 hlt
      simp only [readFrom]
      rw [if_neg (by simp)]
      rw [if_neg (by omega)]
      rw [if_neg (by simp [hhc])]
      rw [if_pos hlt]
  · intro fr c
    refine ⟨?_, ?_, ?_⟩ <;> intro h <;> cases h

/-- C5 amended witness: each truncation case evaluated concretely — a
sync-free stream ends in `EOF`, a 2-byte `0x55`-led remainder hangs,
and a CRC-valid header with a truncated body ends in the I/O error. -/
theorem readFrom_truncation_outcomes_witness :
    readFrom [1, 2, 3] = .eof
    ∧ readFrom [0x55, 9] = .hang
    ∧ readFrom [0x55, 0, 1, 0, 0xA7, 0x17] = .ioEOF :=
  ⟨readFrom_truncation_outcomes.1 [1, 2, 3] (by decide),
   readFrom_truncation_outcomes.2.1 [0x55, 9] (by decide) (by decide) (by decide),
   readFrom_truncation_outcomes.2.2.1 [0x55, 0, 1, 0, 0xA7, 0x17]
     (by decide) (by decide) (by decide) (by decide)⟩

end Enocean

namespace Enocean

/-! ## C3: the unknown-packet-type fallback -/

/-- C3 counterexample: `unknownTypeFrame` passes every CRC and length
check (`ValidEspBytes`), but its packet-type byte `0x08` is outside the
`get_packet_type` enumeration and decoding returns the `Unimplemented`
error rather than a raw/unknown packet. -/
theorem unknown_packet_type_is_an_error :
    ValidEspBytes unknownTypeFrame
    ∧ esp3_of_enocean_message unknownTypeFrame = .err .unimplemented unknownTypeFrame := by
  refine ⟨by decide, by decide⟩

/-- C3 (amended): the verbatim raw fallback applies exactly to the
recognized-but-unmodeled packet types `0x03, 0x04, 0x05, 0x06, 0x07,
0x09, 0x0A, 0x10, 0x11`: a CRC-valid frame with such a type byte
decodes (without error) to the `RawData` variant carrying the data
bytes and the optional-data bytes verbatim.  Packet-type bytes outside
the enumeration are rejected with an `Unimplemented` error instead. -/
theorem raw_fallback_for_unmodeled_types (em : List Nat) (hv : ValidEspBytes em)
    (hmem : em.getD 4 0 ∈ ([0x03, 0x04, 0x05, 0x06, 0x07, 0x09, 0x0A, 0x10, 0x11] : List Nat)) :
    ∃ esp, esp3_of_enocean_message em = .ok esp
      ∧ esp.data = .rawData ((em.drop 6).take (em.getD 1 0 * 256 + em.getD 2 0))
      ∧ esp.opt_data
          = some (.rawData ((em.drop (6 + (em.getD 1 0 * 256 + em.getD 2 0))).take (em.getD 3 0))) := by
  obtain ⟨h0, h7, hhc, hlen, hdc⟩ := hv
  simp only [esp3_of_enocean_message]
  rw [if_neg (by omega)]
  rw [if_neg (by simpa using h0)]
  rw [if_neg (by omega)]
  rw [if_neg (by simpa using hhc)]
  rw [if_neg (by omega)]
  rw [if_neg (by simpa using hdc)]
  simp only [List.mem_cons, List.not_mem_nil, or_false] at hmem
  rcases hmem with h4 | h4 | h4 | h4 | h4 | h4 | h4 | h4 | h4 <;>
    simp only [get_packet_type, h4] <;>
    exact ⟨_, rfl, rfl, rfl⟩

/-- C3 amended witness: the raw fallback evaluated on a CRC-valid
RadioSubTel (`0x03`) frame. -/
theorem raw_fallback_witness :
    (ValidEspBytes rawTypeFrame ∧ rawTypeFrame.getD 4 0 ∈ ([0x03, 0x04, 0x05, 0x06, 0x07, 0x09, 0x0A, 0x10, 0x11] : List Nat))
    ∧ ∃ esp, esp3_of_enocean_message rawTypeFrame = .ok esp
      ∧ esp.data = .rawData ((rawTypeFrame.drop 6).take (rawTypeFrame.getD 1 0 * 256 + rawTypeFrame.getD 2 0))
      ∧ esp.opt_data
          = some (.rawData ((rawTypeFrame.drop (6 + (rawTypeFrame.getD 1 0 * 256 + rawTypeFrame.getD 2 0))).take (rawTypeFrame.getD 3 0))) :=
  ⟨⟨by decide, by decide⟩,
   raw_fallback_for_unmodeled_types rawTypeFrame (by decide) (by decide)⟩

/-! ## C6: the communicator's incomplete-buffer lifecycle -/

/-- C6 counterexample: a saved incomplete buffer is NOT consumed and
cleared on the very next read attempt regardless of outcome — after it
is created by a short chunk, a next chunk that parses successfully
leaves the saved buffer in place. -/
theorem stale_incomplete_buffer_survives_success :
    communicator_step none incompleteChunk = (some incompleteChunk, .nothing)
    ∧ (communicator_step (some incompleteChunk) validA50401).1 = some incompleteChunk
    ∧ some incompleteChunk ≠ (none : Option (List Nat)) := by
  refine ⟨by decide, by decide, by decide⟩

/-- C6 (amended): the actual lifecycle of `incomplete_serial_buf`: an
`IncompleteMessage` failure saves (or replaces the buffer with) the
offending chunk; the buffer is consumed and cleared only by a chunk
that fails with `NoSyncByte`, and then it is used at most once; a
successful parse or any other error (`CrcMismatch`, `Unimplemented`)
leaves the buffer untouched. -/
theorem incomplete_buffer_lifecycle (inc : Option (List Nat)) (chunk : List Nat) :
    (∀ p, esp3_of_enocean_message chunk = .ok p →
      communicator_step inc chunk = (inc, .sent p))
    ∧ (∀ pkt, esp3_of_enocean_message chunk = .err .incompleteMessage pkt →
      communicator_step inc chunk = (some pkt, .nothing))
    ∧ (∀ b pkt, inc = some b → esp3_of_enocean_message chunk = .err .noSyncByte pkt →
      (communicator_step inc chunk).1 = none)
    ∧ (∀ pkt kind, esp3_of_enocean_message chunk = .err kind pkt →
      (kind = .crcMismatch ∨ kind = .unimplemented) →
      communicator_step inc chunk = (inc, .nothing)) := by
  refine ⟨?_, ?_, ?_, ?_⟩
  · intro p hp
    simp [communicator_step, hp]
  · intro pkt hp
    simp [communicator_step, hp]
  · intro b pkt hb hp
    subst hb
    simp [communicator_step, hp]
  · intro pkt kind hp hkind
    rcases hkind with rfl | rfl <;> simp [communicator_step, hp]

/-- C6 amended witness: creation by an `IncompleteMessage` chunk and
consumption by the next `NoSyncByte` chunk, evaluated concretely. -/
theorem incomplete_buffer_lifecycle_witness :
    communicator_step none [85, 0, 7, 7, 2] = (some [85, 0, 7, 7, 2], .nothing)
    ∧ (communicator_step (some [85, 0, 7, 7, 2]) [9, 9]).1 = none :=
  ⟨(incomplete_buffer_lifecycle none [85, 0, 7, 7, 2]).2.1 [85, 0, 7, 7, 2] (by decide),
   (incomplete_buffer_lifecycle (some [85, 0, 7, 7, 2]) [9, 9]).2.2.1
     [85, 0, 7, 7, 2] [9, 9] rfl (by decide)⟩

/-! ## C7: request/response correlation in `Port::write_packet` -/

/-- C7: while a command is outstanding, `write_packet` pushes every
non-Response frame (packet type ≠ `0x02`) onto the back of the pending
queue in arrival order and keeps reading; it stops at the first
Response frame and returns its `Response::decode`; the queue afterward
is the old queue extended with exactly the non-Response frames that
preceded that Response, in order. -/
theorem write_packet_routes_and_correlates (frames queue : List ESP3FrameM)
    (h : ∃ f ∈ frames, f.packet_type = 0x02) :
    ∃ r rest, frames.dropWhile (fun f => f.packet_type != 0x02) = r :: rest
      ∧ r.packet_type = 0x02
      ∧ (∀ f ∈ frames.takeWhile (fun f => f.packet_type != 0x02), f.packet_type ≠ 0x02)
      ∧ write_packet frames queue
          = some (queue ++ frames.takeWhile (fun f => f.packet_type != 0x02),
                  response_decode r) := by
  revert h
  induction frames generalizing queue with
  | nil =>
    intro h
    rcases h with ⟨f, hf, _⟩
    simp at hf
  | cons f rest ih =>
    intro h
    by_cases hf2 : f.packet_type = 0x02
    · refine ⟨f, rest, ?_, hf2, ?_, ?_⟩
      · simp [List.dropWhile_cons, hf2]
      · simp [List.takeWhile_cons, hf2]
      · simp [write_packet, write_packet_loop, hf2]
    · rcases h with ⟨g, hg, hg2⟩
      have hgrest : g ∈ rest := by
        rcases List.mem_cons.mp hg with rfl | hmem
        · exact absurd hg2 hf2
        · exact hmem
      obtain ⟨r, rest2, hdrop, hr2, htake, heq⟩ := ih (queue ++ [f]) ⟨g, hgrest, hg2⟩
      refine ⟨r, rest2, ?_, hr2, ?_, ?_⟩
      · simpa [List.dropWhile_cons, hf2] using hdrop
      · intro x hx
        simp only [List.takeWhile_cons, bne_iff_ne, ne_eq, hf2, not_false_eq_true,
          if_true, List.mem_cons] at hx
        rcases hx with rfl | hx
        · exact hf2
        · exact htake x (by simpa [bne_iff_ne] using hx)
      · have hstep : write_packet (f :: rest) queue = write_packet rest (queue ++ [f]) := by
          simp [write_packet, write_packet_loop, hf2]
        rw [hstep, heq]
        simp [List.takeWhile_cons, hf2]

/-- C7 witness: one non-Response frame followed by one Response frame,
starting from an empty queue. -/
theorem write_packet_witness :
    (∃ f ∈ [frameA, frameR], f.packet_type = 0x02)
    ∧ ∃ r rest, ([frameA, frameR].dropWhile (fun f => f.packet_type != 0x02)) = r :: rest
      ∧ r.packet_type = 0x02
      ∧ (∀ f ∈ [frameA, frameR].takeWhile (fun f => f.packet_type != 0x02), f.packet_type ≠ 0x02)
      ∧ write_packet [frameA, frameR] []
          = some ([] ++ [frameA, frameR].takeWhile (fun f => f.packet_type != 0x02),
                  response_decode r) :=
  ⟨⟨frameR, by decide, by decide⟩,
   write_packet_routes_and_correlates [frameA, frameR] [] ⟨frameR, by decide, by decide⟩⟩

end Enocean
